import Mathlib

/-!
Shallow embedding of the zarinpalgo payment-gateway client (zarinpalgo.go).

The HTTP transport is external: every operation that performs a network
exchange takes the exchange's outcome (`HttpResult`) as an explicit input.
JSON bodies are modelled by the inductive `Json`; the embedding fixes the
concrete syntax of a body to the compact serialized form, so the raw bytes of
a sub-region (Go `json.RawMessage`) are `Json.serialize` of the sub-value.
JSON numbers are modelled as integers, matching every numeric field of the
API schema (Go `int`). Object keys are matched exactly against the snake_case
struct tags of the source; Go's case-insensitive fallback for field names is
outside the model.
-/

namespace Zarinpalgo

/-- A JSON value. `obj` keeps fields in their textual order (duplicates
allowed, as in a JSON text). -/
inductive Json where
  | null : Json
  | bool (b : Bool) : Json
  | num (n : Int) : Json
  | str (s : String) : Json
  | arr (elems : List Json) : Json
  | obj (fields : List (String × Json)) : Json
deriving Inhabited

/-- Escape one character of a JSON string literal (quote and backslash; other
characters are emitted verbatim). -/
def escapeChar (c : Char) : String :=
  if c = '"' then "\\\""
  else if c = '\\' then "\\\\"
  else String.singleton c

/-- The body of a serialized JSON string literal. -/
def escapeString (s : String) : String :=
  String.join (s.data.map escapeChar)

mutual

/-- Compact serialization of a JSON value: the raw bytes (`json.RawMessage`)
of the corresponding region of a compact-encoded body. -/
def Json.serialize : Json → String
  | .null => "null"
  | .bool true => "true"
  | .bool false => "false"
  | .num n => toString n
  | .str s => "\"" ++ escapeString s ++ "\""
  | .arr elems => "[" ++ Json.serializeArr elems ++ "]"
  | .obj fields => "\x7b" ++ Json.serializeObj fields ++ "\x7d"

/-- Comma-separated serialization of array elements. -/
def Json.serializeArr : List Json → String
  | [] => ""
  | [j] => Json.serialize j
  | j :: rest => Json.serialize j ++ "," ++ Json.serializeArr rest

/-- Comma-separated serialization of object fields. -/
def Json.serializeObj : List (String × Json) → String
  | [] => ""
  | [(k, v)] => "\"" ++ escapeString k ++ "\":" ++ Json.serialize v
  | (k, v) :: rest =>
      "\"" ++ escapeString k ++ "\":" ++ Json.serialize v ++ ","
        ++ Json.serializeObj rest

end

/-- Raw bytes of a possibly-absent `json.RawMessage` region: a `nil` raw
message converts to the empty string (`string(baseResponse.Errors)` in the
source), a present one to its serialized form. -/
def rawString : Option Json → String
  | none => ""
  | some j => j.serialize

/-- Go `encoding/json` field lookup for a struct field with the given tag:
every occurrence of the key overwrites the previous one, so the last
occurrence wins. Returns `none` when the key is absent. -/
def lookupField (fields : List (String × Json)) (key : String) : Option Json :=
  fields.foldl (fun acc kv => if kv.1 = key then some kv.2 else acc) none

/-- Go unmarshalling of a JSON region into a `string` struct field: absent or
`null` leaves the zero value `""`; a string succeeds; anything else is a type
error. -/
def parseStringField : Option Json → Option String
  | none => some ""
  | some .null => some ""
  | some (.str s) => some s
  | some _ => none

/-- Go unmarshalling of a JSON region into an `int` struct field: absent or
`null` leaves the zero value `0`; an (integer) number succeeds; anything else
is a type error. -/
def parseIntField : Option Json → Option Int
  | none => some 0
  | some .null => some 0
  | some (.num n) => some n
  | some _ => none

/-- Go unmarshalling of a JSON region into a `[]interface{}` struct field:
absent or `null` leaves the zero value (nil slice); an array succeeds;
anything else is a type error. -/
def parseListField : Option Json → Option (List Json)
  | none => some []
  | some .null => some []
  | some (.arr elems) => some elems
  | some _ => none

/-- The two-field envelope `BaseResponse`. Each field models a
`json.RawMessage`, carried as the sub-value together with absence
(`none` = key missing = nil raw message). -/
structure BaseResponse where
  Data : Option Json
  Errors : Option Json
deriving Inhabited

/-- The shape `ErrorResponse` the errors region is parsed into. -/
structure ErrorResponse where
  Message : String
  Code : Int
  Validations : List Json
deriving Inhabited

/-- Go `json.Unmarshal(body, &baseResponse)`: `null` is a no-op leaving zero
values (both raw messages nil); an object binds each `json.RawMessage` field
to the matching key's region; any other top-level value is a type error. -/
def unmarshalBase : Json → Option BaseResponse
  | .null => some ⟨none, none⟩
  | .obj fields => some ⟨lookupField fields "data", lookupField fields "errors"⟩
  | _ => none

/-- Go `json.Unmarshal(baseResponse.Errors, &errorResponse)` on a parsed errors
value: `null` is a no-op leaving zero values; an object parses the three
tagged fields (unknown keys ignored); any other value is a type error. -/
def unmarshalErrorResponse : Json → Option ErrorResponse
  | .null => some ⟨"", 0, []⟩
  | .obj fields => do
      let message ← parseStringField (lookupField fields "message")
      let code ← parseIntField (lookupField fields "code")
      let validations ← parseListField (lookupField fields "validations")
      pure ⟨message, code, validations⟩
  | _ => none

/-- Go `json.Unmarshal` of the errors raw bytes: a nil raw message (empty input)
is a syntax error, otherwise parse the value. -/
def unmarshalErrorsRaw : Option Json → Option ErrorResponse
  | none => none
  | some j => unmarshalErrorResponse j

/-- The emptiness test of zarinpalgo.go line 244:
`string(Errors) == "[]" || string(Errors) == "{}" || string(Errors) == ""`. -/
def isEmptyErrorsStr (s : String) : Bool :=
  s == "[]" || s == "\x7b\x7d" || s == ""

/-- The two ways `checkResponse` itself fails: a JSON parse error
(`MalformedEnvelope` in the spec's taxonomy) or the gateway-reported error
built by `fmt.Errorf("error code: %d, error: %s", ...)`. -/
inductive CheckError where
  | malformedEnvelope : CheckError
  | gatewayError (code : Int) (message : String) : CheckError
deriving DecidableEq

/-- The decoder `checkResponse` (zarinpalgo.go lines 237-257), returning the data region
as a parsed value (`none` = absent): unmarshal the body into the two-field
envelope; if the errors raw bytes are not exactly `[]`, `⦃⦄` or empty,
unmarshal them into `ErrorResponse` and report a gateway error; otherwise
return the data region unchanged. -/
def checkResponseCore (body : Json) : Except CheckError (Option Json) :=
  match unmarshalBase body with
  | none => .error .malformedEnvelope
  | some baseResponse =>
    let isEmptyErrors := isEmptyErrorsStr (rawString baseResponse.Errors)
    if !isEmptyErrors then
      match unmarshalErrorsRaw baseResponse.Errors with
      | none => .error .malformedEnvelope
      | some errorResponse =>
          .error (.gatewayError errorResponse.Code errorResponse.Message)
    else
      .ok baseResponse.Data


/-- Function `checkResponse` with its Go return type: the successful result is the raw
bytes of the data region (`rawMessage json.RawMessage`). -/
def checkResponse (body : Json) : Except CheckError String :=
  (checkResponseCore body).map rawString

/-- The `Zarinpal` client configuration. The `*http.Client` transport handle
is the external collaborator and is not part of the value. -/
structure Zarinpal where
  MerchantID : String
  APIBaseURL : String
  PaymentBaseURL : String
deriving DecidableEq, Inhabited

/-- Constructor `NewWithMode` (zarinpalgo.go lines 96-110). -/
def NewWithMode (merchantID : String) (sandbox : Bool) : Zarinpal :=
  let baseURL := if sandbox then "https://sandbox.zarinpal.com"
    else "https://payment.zarinpal.com"
  ⟨merchantID, baseURL ++ "/pg/v4/payment/", baseURL ++ "/pg/StartPay/"⟩

/-- Constructor `New` (zarinpalgo.go lines 91-93). -/
def New (merchantID : String) : Zarinpal :=
  NewWithMode merchantID false

/-- Method `GetPaymentURL` (zarinpalgo.go lines 233-235). -/
def GetPaymentURL (z : Zarinpal) (authority : String) : String :=
  z.PaymentBaseURL ++ authority

/-- Struct `PaymentStatus`. -/
structure PaymentStatus where
  IsSuccessful : Bool
  IsRepeated : Bool
  RefID : Int
  Message : String
deriving DecidableEq, Inhabited

/-- Struct `PaymentVerificationResponse`. -/
structure PaymentVerificationResponse where
  Code : Int
  Message : String
  CardHash : String
  CardPan : String
  RefID : Int
  FeeType : String
  Fee : Int
deriving DecidableEq, Inhabited

/-- Struct `PaymentCreationResponse`. -/
structure PaymentCreationResponse where
  Code : Int
  Message : String
  Authority : String
  FeeType : String
  Fee : Int
deriving DecidableEq, Inhabited

/-- Constant `PaymentCodeSuccess` = 100. -/
def PaymentCodeSuccess : Int := 100

/-- Constant `PaymentCodeAlreadyVerified` = 101. -/
def PaymentCodeAlreadyVerified : Int := 101

/-- Go `json.Unmarshal(rawMessage, &paymentVerificationResponse)`: tagged
fields parsed by Go field semantics, unknown keys ignored. -/
def unmarshalVerificationResponse (j : Json) :
    Option PaymentVerificationResponse :=
  match j with
  | .null => some ⟨0, "", "", "", 0, "", 0⟩
  | .obj fields => do
      let code ← parseIntField (lookupField fields "code")
      let message ← parseStringField (lookupField fields "message")
      let cardHash ← parseStringField (lookupField fields "card_hash")
      let cardPan ← parseStringField (lookupField fields "card_pan")
      let refID ← parseIntField (lookupField fields "ref_id")
      let feeType ← parseStringField (lookupField fields "fee_type")
      let fee ← parseIntField (lookupField fields "fee")
      pure ⟨code, message, cardHash, cardPan, refID, feeType, fee⟩
  | _ => none

/-- Go `json.Unmarshal(rawMessage, &paymentCreationResponse)`. -/
def unmarshalCreationResponse (j : Json) : Option PaymentCreationResponse :=
  match j with
  | .null => some ⟨0, "", "", "", 0⟩
  | .obj fields => do
      let code ← parseIntField (lookupField fields "code")
      let message ← parseStringField (lookupField fields "message")
      let authority ← parseStringField (lookupField fields "authority")
      let feeType ← parseStringField (lookupField fields "fee_type")
      let fee ← parseIntField (lookupField fields "fee")
      pure ⟨code, message, authority, feeType, fee⟩
  | _ => none

/-- Outcome of one HTTP exchange, the external collaborator's contribution:
a transport error, or a full response body. A body that is not valid JSON is
`body none`; a valid one is carried as its parsed value. -/
inductive HttpResult where
  | transportError (message : String) : HttpResult
  | body (parsed : Option Json) : HttpResult

/-- The errors an operation can return, following the spec's taxonomy.
`errText` below gives each one's `err.Error()` text; for the two
JSON-library errors that text is abstracted to a fixed phrase, for the
gateway error it is the exact `fmt.Errorf` format of the source. -/
inductive OpError where
  | transport (message : String) : OpError
  | malformedEnvelope : OpError
  | gatewayError (code : Int) (message : String) : OpError
  | malformedPayload : OpError
deriving DecidableEq

/-- Text of `err.Error()` for an operation error. -/
def OpError.errText : OpError → String
  | .transport message => message
  | .malformedEnvelope => "malformed envelope"
  | .malformedPayload => "malformed payload"
  | .gatewayError code message =>
      "error code: " ++ toString code ++ ", error: " ++ message

/-- The shared response path of `NewPayment` and `VerifyPayment`: propagate a
transport error; unmarshal the body (invalid JSON fails the envelope parse);
run `checkResponse`; surface its error unchanged. On success yield the data
region for the operation-specific unmarshal. -/
def decodeBody : HttpResult → Except OpError (Option Json)
  | .transportError message => .error (.transport message)
  | .body none => .error .malformedEnvelope
  | .body (some j) =>
    match checkResponseCore j with
    | .error .malformedEnvelope => .error .malformedEnvelope
    | .error (.gatewayError code message) => .error (.gatewayError code message)
    | .ok dataRegion => .ok dataRegion

/-- Method `VerifyPayment` (zarinpalgo.go lines 159-199), in state-passing form: the
second component is the receiver's configuration when the method returns (the
body never assigns to the receiver's fields). An absent data region is empty
input to the final unmarshal, a syntax error (`MalformedPayload`). -/
def VerifyPayment (z : Zarinpal) (http : HttpResult) :
    Except OpError PaymentVerificationResponse × Zarinpal :=
  (match decodeBody http with
   | .error e => .error e
   | .ok none => .error .malformedPayload
   | .ok (some dataRegion) =>
     match unmarshalVerificationResponse dataRegion with
     | none => .error .malformedPayload
     | some v => .ok v, z)

/-- Method `NewPayment` (zarinpalgo.go lines 113-156), response path, in
state-passing form. -/
def NewPayment (z : Zarinpal) (http : HttpResult) :
    Except OpError PaymentCreationResponse × Zarinpal :=
  (match decodeBody http with
   | .error e => .error e
   | .ok none => .error .malformedPayload
   | .ok (some dataRegion) =>
     match unmarshalCreationResponse dataRegion with
     | none => .error .malformedPayload
     | some v => .ok v, z)

/-- The result-construction of `CheckPaymentStatus` (zarinpalgo.go lines
202-230) from the outcome of `VerifyPayment`, generic in the error type:
on error, a zero-valued status carrying `err.Error()` plus the same error;
on success, copy message and reference id and classify the code. -/
def checkPaymentStatusResult {E : Type} (errText : E → String)
    (verifyResult : Except E PaymentVerificationResponse) :
    PaymentStatus × Option E :=
  match verifyResult with
  | .error err => (⟨false, false, 0, errText err⟩, some err)
  | .ok verification =>
    let status : PaymentStatus :=
      ⟨false, false, verification.RefID, verification.Message⟩
    let status :=
      if verification.Code = PaymentCodeSuccess then
        { status with IsSuccessful := true, IsRepeated := false }
      else if verification.Code = PaymentCodeAlreadyVerified then
        { status with IsSuccessful := true, IsRepeated := true }
      else
        { status with IsSuccessful := false, IsRepeated := false }
    (status, none)

/-- Method `CheckPaymentStatus` in state-passing form: verify, then build the
user-facing status. -/
def CheckPaymentStatus (z : Zarinpal) (http : HttpResult) :
    (PaymentStatus × Option OpError) × Zarinpal :=
  ((VerifyPayment z http).1 |> checkPaymentStatusResult OpError.errText,
    (VerifyPayment z http).2)

/-- Method `GetPaymentURL` in the same state-passing form as the other operations
(the method reads the receiver and returns only a string). -/
def GetPaymentURLOp (z : Zarinpal) (authority : String) : String × Zarinpal :=
  (GetPaymentURL z authority, z)

/-- Appending one quoted string region keeps the opening quote first. -/
lemma data_quote_cons (s : String) : ("\"" ++ s).data = '"' :: s.data := by
  rw [String.data_append]
  rfl

/-- The serialization of a non-empty object's field list starts with the
opening quote of its first key. -/
lemma serializeObj_cons_data (k : String) (v : Json) (fs : List (String × Json)) :
    ∃ r, (Json.serializeObj ((k, v) :: fs)).data = '"' :: r := by
  cases fs with
  | nil =>
    refine ⟨(escapeString k ++ "\":" ++ Json.serialize v).data, ?_⟩
    show ("\"" ++ escapeString k ++ "\":" ++ Json.serialize v).data = _
    simp [String.data_append, data_quote_cons]
  | cons p rest =>
    refine ⟨(escapeString k ++ "\":" ++ Json.serialize v ++ ","
      ++ Json.serializeObj (p :: rest)).data, ?_⟩
    show ("\"" ++ escapeString k ++ "\":" ++ Json.serialize v ++ ","
      ++ Json.serializeObj (p :: rest)).data = _
    simp [String.data_append, data_quote_cons]

/-- A non-empty JSON object never serializes to `[]`, to the empty object, or
to the empty string, so the source's emptiness test classifies it as a real
error. -/
lemma isEmptyErrorsStr_obj_cons (k : String) (v : Json) (fs : List (String × Json)) :
    isEmptyErrorsStr (Json.serialize (.obj ((k, v) :: fs))) = false := by
  obtain ⟨r, hr⟩ := serializeObj_cons_data k v fs
  have hdata : (Json.serialize (.obj ((k, v) :: fs))).data
      = '\x7b' :: '"' :: (r ++ ['\x7d']) := by
    show ("\x7b" ++ Json.serializeObj ((k, v) :: fs) ++ "\x7d").data = _
    rw [String.data_append, String.data_append, hr]
    rfl
  simp only [isEmptyErrorsStr, Bool.or_eq_false_iff, beq_eq_false_iff_ne, ne_eq,
    String.ext_iff, hdata]
  constructor
  constructor
  · intro h
    have : '\x7b' = '[' := by
      have := List.head_eq_of_cons_eq h
      exact this
    exact absurd this (by decide)
  · intro h
    have h2 := List.tail_eq_of_cons_eq h
    have : '"' = '\x7d' := List.head_eq_of_cons_eq h2
    exact absurd this (by decide)
  · intro h
    simp at h

/-- Claim C1: for every envelope body whose errors region serializes as
exactly the empty list, the empty object, or the empty string (absence gives
the empty string), `checkResponse` returns the raw data region unchanged and
does not return a gateway error. -/
theorem checkResponse_empty_errors_returns_data (body : Json) (base : BaseResponse)
    (hb : unmarshalBase body = some base)
    (he : rawString base.Errors = "[]" ∨ rawString base.Errors = "\x7b\x7d"
      ∨ rawString base.Errors = "") :
    checkResponse body = Except.ok (rawString base.Data) := by
  have hemp : isEmptyErrorsStr (rawString base.Errors) = true := by
    rcases he with h | h | h <;> simp [isEmptyErrorsStr, h]
  simp [checkResponse, checkResponseCore, hb, hemp, Except.map]

/-- Claim C1 witness: the envelope with data `5` and errors `[]` decodes to
the raw data bytes. -/
theorem checkResponse_empty_errors_witness :
    unmarshalBase (Json.obj [("data", Json.num 5), ("errors", Json.arr [])])
      = some ⟨some (Json.num 5), some (Json.arr [])⟩
    ∧ rawString (some (Json.arr [])) = "[]"
    ∧ checkResponse (Json.obj [("data", Json.num 5), ("errors", Json.arr [])])
      = Except.ok (rawString (some (Json.num 5))) :=
  ⟨rfl, rfl,
    checkResponse_empty_errors_returns_data _ ⟨some (Json.num 5), some (Json.arr [])⟩
      rfl (Or.inl rfl)⟩

/-- Claim C2: the status classification of `CheckPaymentStatus` is a total
deterministic pure mapping over the verification response: code 100 yields
successful and not repeated, code 101 yields successful and repeated, and
every other integer code yields neither. -/
theorem checkPaymentStatus_classification {E : Type} (errText : E → String)
    (v : PaymentVerificationResponse) :
    ((checkPaymentStatusResult errText (Except.ok v)).1.IsSuccessful,
      (checkPaymentStatusResult errText (Except.ok v)).1.IsRepeated)
      = if v.Code = 100 then (true, false)
        else if v.Code = 101 then (true, true)
        else (false, false) := by
  by_cases h1 : v.Code = 100
  · simp [checkPaymentStatusResult, PaymentCodeSuccess, PaymentCodeAlreadyVerified, h1]
  · by_cases h2 : v.Code = 101 <;>
      simp [checkPaymentStatusResult, PaymentCodeSuccess, PaymentCodeAlreadyVerified, h1, h2]

/-- Claim C3 counterexample: an errors region that is a non-empty object
whose `code` and `message` fields parse fine, but whose `validations` field
is a string, makes `checkResponse` fail with a malformed-envelope error
instead of returning the gateway error the claim promises. -/
theorem checkResponse_nonempty_errors_counterexample :
    checkResponse (Json.obj [("errors", Json.obj [("code", Json.num 5),
        ("message", Json.str "oops"), ("validations", Json.str "bad")])])
      = Except.error CheckError.malformedEnvelope
    ∧ checkResponse (Json.obj [("errors", Json.obj [("code", Json.num 5),
        ("message", Json.str "oops"), ("validations", Json.str "bad")])])
      ≠ Except.error (CheckError.gatewayError 5 "oops") :=
  ⟨rfl, fun h => CheckError.noConfusion (Except.error.inj h)⟩

/-- Claim C3 as amended: for every envelope whose errors region is a
non-empty JSON object whose `code`, `message` and `validations` fields all
parse (integer, string, and list-or-absent-or-null respectively),
`checkResponse` returns a gateway error carrying exactly that code and that
message, and does not return the data region. -/
theorem checkResponse_nonempty_errors_gateway (body : Json) (base : BaseResponse)
    (fields : List (String × Json)) (c : Int) (m : String) (vs : List Json)
    (hb : unmarshalBase body = some base)
    (he : base.Errors = some (Json.obj fields))
    (hne : fields ≠ [])
    (hc : parseIntField (lookupField fields "code") = some c)
    (hm : parseStringField (lookupField fields "message") = some m)
    (hv : parseListField (lookupField fields "validations") = some vs) :
    checkResponse body = Except.error (CheckError.gatewayError c m) := by
  obtain ⟨⟨k, v⟩, rest, rfl⟩ : ∃ p rest, fields = p :: rest := by
    cases fields with
    | nil => exact absurd rfl hne
    | cons p rest => exact ⟨p, rest, rfl⟩
  have hemp := isEmptyErrorsStr_obj_cons k v rest
  simp [checkResponse, checkResponseCore, hb, he, rawString, hemp,
    unmarshalErrorsRaw, unmarshalErrorResponse, hc, hm, hv, Except.map]

/-- Claim C3 witness: an errors object with code 5 and message `oops` yields
exactly that gateway error. -/
theorem checkResponse_nonempty_errors_gateway_witness :
    unmarshalBase (Json.obj [("data", Json.str "d"),
        ("errors", Json.obj [("code", Json.num 5), ("message", Json.str "oops")])])
      = some ⟨some (Json.str "d"),
          some (Json.obj [("code", Json.num 5), ("message", Json.str "oops")])⟩
    ∧ checkResponse (Json.obj [("data", Json.str "d"),
        ("errors", Json.obj [("code", Json.num 5), ("message", Json.str "oops")])])
      = Except.error (CheckError.gatewayError 5 "oops") :=
  ⟨rfl, checkResponse_nonempty_errors_gateway _
    ⟨some (Json.str "d"), some (Json.obj [("code", Json.num 5), ("message", Json.str "oops")])⟩
    [("code", Json.num 5), ("message", Json.str "oops")] 5 "oops" []
    rfl rfl (List.cons_ne_nil _ _) rfl rfl rfl⟩

/-- Claim C4: `checkResponse` fails with a malformed-envelope error exactly
when the top-level body does not parse as the two-field envelope, or when the
errors region is classified non-empty but does not parse into the error
shape; in every other case the failure, if any, is a gateway error. -/
theorem checkResponse_malformed_iff (body : Json) :
    checkResponse body = Except.error CheckError.malformedEnvelope ↔
      unmarshalBase body = none ∨
      ∃ base, unmarshalBase body = some base ∧
        isEmptyErrorsStr (rawString base.Errors) = false ∧
        unmarshalErrorsRaw base.Errors = none := by
  cases hb : unmarshalBase body with
  | none => simp [checkResponse, checkResponseCore, hb, Except.map]
  | some base =>
    cases he : isEmptyErrorsStr (rawString base.Errors) with
    | false =>
      cases hu : unmarshalErrorsRaw base.Errors with
      | none => simp [checkResponse, checkResponseCore, hb, he, hu, Except.map]
      | some er => simp [checkResponse, checkResponseCore, hb, he, hu, Except.map]
    | true => simp [checkResponse, checkResponseCore, hb, he, Except.map]

/-- Claim C4 witness: a top-level string body is a malformed envelope. -/
theorem checkResponse_malformed_iff_witness :
    checkResponse (Json.str "x") = Except.error CheckError.malformedEnvelope :=
  (checkResponse_malformed_iff (Json.str "x")).mpr (Or.inl rfl)

/-- Claim C5: whenever `VerifyPayment` succeeds, `CheckPaymentStatus` copies
the response's message and reference identifier into the returned status
unchanged, whatever the status code is. -/
theorem checkPaymentStatus_copies_message_refid (z : Zarinpal) (http : HttpResult)
    (v : PaymentVerificationResponse)
    (h : (VerifyPayment z http).1 = Except.ok v) :
    ((CheckPaymentStatus z http).1).1.Message = v.Message ∧
    ((CheckPaymentStatus z http).1).1.RefID = v.RefID := by
  simp only [CheckPaymentStatus, h, checkPaymentStatusResult]
  split_ifs <;> simp

/-- Claim C5 witness: a successful verification with message `ok` and
reference id 7 reaches the status unchanged. -/
theorem checkPaymentStatus_copies_witness :
    (VerifyPayment (New "m") (HttpResult.body (some (Json.obj
        [("data", Json.obj [("code", Json.num 100), ("message", Json.str "ok"),
          ("ref_id", Json.num 7)]), ("errors", Json.arr [])])))).1
      = Except.ok ⟨100, "ok", "", "", 7, "", 0⟩
    ∧ ((CheckPaymentStatus (New "m") (HttpResult.body (some (Json.obj
        [("data", Json.obj [("code", Json.num 100), ("message", Json.str "ok"),
          ("ref_id", Json.num 7)]), ("errors", Json.arr [])])))).1).1.Message = "ok"
    ∧ ((CheckPaymentStatus (New "m") (HttpResult.body (some (Json.obj
        [("data", Json.obj [("code", Json.num 100), ("message", Json.str "ok"),
          ("ref_id", Json.num 7)]), ("errors", Json.arr [])])))).1).1.RefID = 7 :=
  ⟨rfl,
    (checkPaymentStatus_copies_message_refid (New "m") (HttpResult.body (some (Json.obj
        [("data", Json.obj [("code", Json.num 100), ("message", Json.str "ok"),
          ("ref_id", Json.num 7)]), ("errors", Json.arr [])])))
      ⟨100, "ok", "", "", 7, "", 0⟩ rfl).1,
    (checkPaymentStatus_copies_message_refid (New "m") (HttpResult.body (some (Json.obj
        [("data", Json.obj [("code", Json.num 100), ("message", Json.str "ok"),
          ("ref_id", Json.num 7)]), ("errors", Json.arr [])])))
      ⟨100, "ok", "", "", 7, "", 0⟩ rfl).2⟩

/-- Claim C6: `GetPaymentURL` is the plain concatenation of the client's
payment base URL with the authority token, with no separator, encoding, or
validation; on the sandbox base with authority `ABC123` it gives exactly the
expected URL. -/
theorem getPaymentURL_concat (z : Zarinpal) (authority : String) :
    GetPaymentURL z authority = z.PaymentBaseURL ++ authority
    ∧ GetPaymentURL (NewWithMode "m" true) "ABC123"
      = "https://sandbox.zarinpal.com/pg/StartPay/ABC123" :=
  ⟨rfl, rfl⟩

/-- Claim C7: the base URLs are a pure function of the sandbox flag at
construction: sandbox mode selects the sandbox host, production mode the
production host, with identical protocol and paths, and `New` is production
mode. -/
theorem newWithMode_baseURLs (merchantID : String) :
    NewWithMode merchantID true
      = ⟨merchantID, "https://sandbox.zarinpal.com/pg/v4/payment/",
          "https://sandbox.zarinpal.com/pg/StartPay/"⟩
    ∧ NewWithMode merchantID false
      = ⟨merchantID, "https://payment.zarinpal.com/pg/v4/payment/",
          "https://payment.zarinpal.com/pg/StartPay/"⟩
    ∧ New merchantID = NewWithMode merchantID false :=
  ⟨rfl, rfl, rfl⟩

/-- Claim C8: no operation mutates the client's configuration: the receiver
state each operation returns is the one it was given, so merchant id and
both base URLs are unchanged. -/
theorem operations_preserve_config (z : Zarinpal) (http : HttpResult)
    (authority : String) :
    (NewPayment z http).2 = z
    ∧ (VerifyPayment z http).2 = z
    ∧ (CheckPaymentStatus z http).2 = z
    ∧ (GetPaymentURLOp z authority).2 = z :=
  ⟨rfl, rfl, rfl, rfl⟩

/-- Claim C9: when the errors region is the JSON literal `null`, it is
classified non-empty, its parse succeeds with zero values, and the result is
a gateway error with code 0 and empty message, the data region being
dropped. -/
theorem checkResponse_null_errors_gateway_zero (body : Json) (base : BaseResponse)
    (hb : unmarshalBase body = some base)
    (he : base.Errors = some Json.null) :
    checkResponse body = Except.error (CheckError.gatewayError 0 "") := by
  simp +decide [checkResponse, checkResponseCore, hb, he, rawString, Json.serialize,
    isEmptyErrorsStr, unmarshalErrorsRaw, unmarshalErrorResponse, Except.map]

/-- Claim C9 witness: an envelope with data present and errors `null` yields
the zero-valued gateway error. -/
theorem checkResponse_null_errors_witness :
    unmarshalBase (Json.obj [("data", Json.num 1), ("errors", Json.null)])
      = some ⟨some (Json.num 1), some Json.null⟩
    ∧ checkResponse (Json.obj [("data", Json.num 1), ("errors", Json.null)])
      = Except.error (CheckError.gatewayError 0 "") :=
  ⟨rfl, checkResponse_null_errors_gateway_zero _ ⟨some (Json.num 1), some Json.null⟩ rfl rfl⟩

/-- Claim C10: when `VerifyPayment` fails, `CheckPaymentStatus` returns that
same error alongside a status with both flags false, reference id 0, and the
error's text as message; when `VerifyPayment` succeeds, the returned error is
none. -/
theorem checkPaymentStatus_error_propagation (z : Zarinpal) (http : HttpResult) :
    (∀ e, (VerifyPayment z http).1 = Except.error e →
      (CheckPaymentStatus z http).1
        = (⟨false, false, 0, OpError.errText e⟩, some e))
    ∧ ∀ v, (VerifyPayment z http).1 = Except.ok v →
      ((CheckPaymentStatus z http).1).2 = none := by
  constructor
  · intro e he
    simp [CheckPaymentStatus, he, checkPaymentStatusResult]
  · intro v hv
    simp [CheckPaymentStatus, hv, checkPaymentStatusResult]

/-- Claim C10 witness: a transport failure with text `boom` comes back as the
status message and the propagated error. -/
theorem checkPaymentStatus_error_propagation_witness :
    (VerifyPayment (New "m") (HttpResult.transportError "boom")).1
      = Except.error (OpError.transport "boom")
    ∧ (CheckPaymentStatus (New "m") (HttpResult.transportError "boom")).1
      = (⟨false, false, 0, "boom"⟩, some (OpError.transport "boom")) :=
  ⟨rfl,
    (checkPaymentStatus_error_propagation (New "m")
      (HttpResult.transportError "boom")).1 (OpError.transport "boom") rfl⟩

end Zarinpalgo
